import Mathlib

/-!
Verification development for the chaupar-backend turn-legality and
turn-narration engine.

The JavaScript sources are embedded shallowly:

* `zoneDetector.js` / the legacy `gameData.js` copy → `getZoneType`,
  `getZoneTypeLegacy`, `getTriggerCell`, `getSourceTriggerCell`,
  `isPieceCaptured`, `isWaitingZoneExit`, `isPrisonExit`, `isTeleportMove`,
  `getPlayerTeleport`;
* `distanceCalculator.js` → `calculateGamePathDistance`,
  `calculateManhattanDistance`, `validateDistanceWithDice`;
* `moveValidator.js` → `validateMoveDistance`, `validateWaitingZoneExit`,
  `validatePrisonExit`, `validateTeleportUsage`, `validateMove`,
  `validateAllMoves`;
* `gameStateManager.js` → `compareGameStates`;
* `moveAnalyzer.js` → `areSubsequentHomeCellsOccupied`,
  `analyzePieceMovement`.

The board topology file `gameZones.json` is data, not code; the embedding is
parameterised by a `GameZones` value of the shape the code reads, so every
theorem is proved for all configurations (concrete configurations supply
witnesses and counterexamples).

Board coordinates are strings such as "K1" in the source; all components
treat them as opaque tokens except the Manhattan fallback, which decomposes
them into the column character code and the row number.  A coordinate is
therefore embedded as that decomposition.  JavaScript strings that a message
interpolates are kept abstractly: each produced message is a constructor of
an inductive type carrying exactly the data the source interpolates into the
corresponding template string.
-/

namespace Chaupar

/-- A board cell, as decomposed by `calculateManhattanDistance`:
`col` is the character code of the column letter (`from.charAt(0).charCodeAt(0)`)
and `row` is the parsed row number (`parseInt(from.slice(1))`). -/
structure Coord where
  col : Int
  row : Int
deriving DecidableEq, Repr

/-- The `type` tags that `getZoneType` can return
('waiting', 'starting', 'home', 'prison', 'temple', 'movementStart',
'teleport', 'field').  The source pairs each tag with a redundant `zone`
label; the label is a function of the tag, so only the tag is modelled. -/
inductive ZoneType where
  | waiting
  | starting
  | home
  | prison
  | temple
  | movementStart
  | teleport
  | field
deriving DecidableEq, Repr

/-- The static board topology of `gameZones.json`, in the shape the code
reads it: per-player optional coordinate lists (a missing `playerN` key or a
missing `coordinates` field both become `none`), the prison and temple
trigger tables as ordered `(triggerCell, teleportTo)` entry lists (the order
of `Object.entries`), and per-player movement-start and teleport cells. -/
structure GameZones where
  playerPaths : Nat → Option (List Coord)
  waitingZones : Nat → Option (List Coord)
  startingPositions : Nat → Option (List Coord)
  homeZones : Nat → Option (List Coord)
  prison : List (Coord × Coord)
  temple : List (Coord × Coord)
  movementStart : Nat → Option Coord
  teleportZones : Nat → Option Coord

/-- Membership test for an optional zone coordinate list
(`zone && zone.coordinates && zone.coordinates.includes(position)`). -/
def zoneContains (z : Option (List Coord)) (pos : Coord) : Bool :=
  match z with
  | some cs => cs.contains pos
  | none => false

/-- Zone classification from `zoneDetector.js` (`getZoneType`): waiting,
starting, home, prison targets, temple targets, movement start, teleport,
default field — checked in that order. -/
def getZoneType (gz : GameZones) (pos : Coord) (player : Nat) : ZoneType :=
  if zoneContains (gz.waitingZones player) pos then .waiting
  else if zoneContains (gz.startingPositions player) pos then .starting
  else if zoneContains (gz.homeZones player) pos then .home
  else if (gz.prison.map Prod.snd).contains pos then .prison
  else if (gz.temple.map Prod.snd).contains pos then .temple
  else if gz.movementStart player = some pos then .movementStart
  else if gz.teleportZones player = some pos then .teleport
  else .field

/-- Zone classification from the legacy `gameData.js` copy of `getZoneType`.
It is identical to the `zoneDetector.js` version except that it has no
teleport-zone check: after the movement-start check it falls through to
field. -/
def getZoneTypeLegacy (gz : GameZones) (pos : Coord) (player : Nat) : ZoneType :=
  if zoneContains (gz.waitingZones player) pos then .waiting
  else if zoneContains (gz.startingPositions player) pos then .starting
  else if zoneContains (gz.homeZones player) pos then .home
  else if (gz.prison.map Prod.snd).contains pos then .prison
  else if (gz.temple.map Prod.snd).contains pos then .temple
  else if gz.movementStart player = some pos then .movementStart
  else .field

/-- First trigger cell of an entry list whose `teleportTo` equals the given
target (the `for (const [triggerCell, data] of Object.entries(...))` loops
in `getTriggerCell` and `getSourceTriggerCell`). -/
def findTrigger (entries : List (Coord × Coord)) (target : Coord) : Option Coord :=
  match entries with
  | [] => none
  | (triggerCell, teleportTo) :: rest =>
    if teleportTo = target then some triggerCell else findTrigger rest target

/-- Result shape of `getTriggerCell`: `{ type, trigger, target }`. -/
structure TriggerCell where
  ttype : ZoneType
  trigger : Coord
  target : Coord
deriving DecidableEq, Repr

/-- Result shape of `getSourceTriggerCell`: `{ type, trigger, source }`. -/
structure SourceTriggerCell where
  ttype : ZoneType
  trigger : Coord
  source : Coord
deriving DecidableEq, Repr

/-- Lookup of the trigger cell a piece must have landed on to be teleported
to `targetPosition` (`getTriggerCell` in `zoneDetector.js`): the prison
table is searched first, then the temple table, else null. -/
def getTriggerCell (gz : GameZones) (targetPosition : Coord) : Option TriggerCell :=
  match findTrigger gz.prison targetPosition with
  | some triggerCell => some ⟨.prison, triggerCell, targetPosition⟩
  | none =>
    match findTrigger gz.temple targetPosition with
    | some triggerCell => some ⟨.temple, triggerCell, targetPosition⟩
    | none => none

/-- Lookup of the trigger cell for a piece leaving a prison or temple cell
(`getSourceTriggerCell` in `zoneDetector.js`); same search, different
result field name. -/
def getSourceTriggerCell (gz : GameZones) (currentPosition : Coord) : Option SourceTriggerCell :=
  match findTrigger gz.prison currentPosition with
  | some triggerCell => some ⟨.prison, triggerCell, currentPosition⟩
  | none =>
    match findTrigger gz.temple currentPosition with
    | some triggerCell => some ⟨.temple, triggerCell, currentPosition⟩
    | none => none

/-- A piece movement as produced by `compareGameStates`:
`{ player, piece, pieceId, from, to }` (`from` is a Lean keyword, hence
`fromPos`/`toPos`). -/
structure Movement where
  player : Nat
  piece : Nat
  pieceId : Option String
  fromPos : Coord
  toPos : Coord
deriving DecidableEq, Repr

/-- Capture test from `zoneDetector.js` (`isPieceCaptured`): the destination
classifies as waiting while the origin does not. -/
def isPieceCaptured (gz : GameZones) (mv : Movement) : Bool :=
  getZoneType gz mv.toPos mv.player = ZoneType.waiting ∧
    getZoneType gz mv.fromPos mv.player ≠ ZoneType.waiting

/-- Waiting-zone exit test from `zoneDetector.js` (`isWaitingZoneExit`). -/
def isWaitingZoneExit (gz : GameZones) (fromPos toPos : Coord) (player : Nat) : Bool :=
  getZoneType gz fromPos player = ZoneType.waiting ∧
    getZoneType gz toPos player ≠ ZoneType.waiting

/-- Prison-exit test from `zoneDetector.js` (`isPrisonExit`); only the
origin zone matters. -/
def isPrisonExit (gz : GameZones) (fromPos _toPos : Coord) (player : Nat) : Bool :=
  getZoneType gz fromPos player = ZoneType.prison

/-- Teleport-move test from `zoneDetector.js` (`isTeleportMove`); only the
origin zone matters. -/
def isTeleportMove (gz : GameZones) (fromPos _toPos : Coord) (player : Nat) : Bool :=
  getZoneType gz fromPos player = ZoneType.teleport

/-- The player's own teleport cell (`getPlayerTeleport`). -/
def getPlayerTeleport (gz : GameZones) (player : Nat) : Option Coord :=
  gz.teleportZones player

/-- Manhattan fallback distance from `distanceCalculator.js`
(`calculateManhattanDistance`): column-code delta plus row delta. -/
def calculateManhattanDistance (fromPos toPos : Coord) : Int :=
  ((fromPos.col - toPos.col).natAbs : Int) + ((fromPos.row - toPos.row).natAbs : Int)

/-- JavaScript `Array.prototype.indexOf`: index of the first occurrence, or
-1 when absent. -/
def jsIndexOf (l : List Coord) (x : Coord) : Int :=
  match l with
  | [] => -1
  | a :: rest =>
    if a = x then 0
    else
      let r := jsIndexOf rest x
      if r = -1 then -1 else r + 1

/-- Tail of `calculateGamePathDistance` after the from-side resolution has
produced `fromIndex` (the shared code path of all branches that do not
return early): destination resolution through the trigger tables, the
Manhattan fallback guard, and the final distance formula. -/
def calculateGamePathDistanceAux (gz : GameZones) (fromPos toPos : Coord)
    (player : Nat) (path : List Coord) (fromIndex : Int) : Int :=
  let toIndex0 := jsIndexOf path toPos
  let toIndex :=
    if toIndex0 = -1 then
      let toZone := getZoneType gz toPos player
      if toZone = ZoneType.prison ∨ toZone = ZoneType.temple then
        match getTriggerCell gz toPos with
        | some triggerData => jsIndexOf path triggerData.trigger
        | none => toIndex0
      else if toZone = ZoneType.home then jsIndexOf path toPos
      else toIndex0
    else toIndex0
  if (fromIndex < -2 ∨ (fromIndex = -1 ∧ getZoneType gz fromPos player = ZoneType.field))
      ∨ toIndex = -1 then
    calculateManhattanDistance fromPos toPos
  else if fromIndex = -2 then 2 + toIndex
  else if fromIndex = -1 then 1 + toIndex
  else ((toIndex - fromIndex).natAbs : Int)

/-- Game-path distance from `distanceCalculator.js`
(`calculateGamePathDistance`).  With no configured path for the player the
Manhattan fallback is returned.  Otherwise the origin is looked up on the
path; when absent it is resolved by zone: waiting returns 1 for a starting
destination and otherwise contributes virtual index -2, starting returns 0
for a starting destination and otherwise contributes virtual index -1,
prison and temple resolve through the source trigger cell. -/
def calculateGamePathDistance (gz : GameZones) (fromPos toPos : Coord) (player : Nat) : Int :=
  match gz.playerPaths player with
  | none => calculateManhattanDistance fromPos toPos
  | some path =>
    let fromIndex0 := jsIndexOf path fromPos
    if fromIndex0 = -1 then
      let fromZone := getZoneType gz fromPos player
      let toZone := getZoneType gz toPos player
      if fromZone = ZoneType.waiting then
        if toZone = ZoneType.starting then 1
        else calculateGamePathDistanceAux gz fromPos toPos player path (-2)
      else if fromZone = ZoneType.starting then
        if toZone = ZoneType.starting then 0
        else calculateGamePathDistanceAux gz fromPos toPos player path (-1)
      else if fromZone = ZoneType.prison ∨ fromZone = ZoneType.temple then
        let fromIndex :=
          match getSourceTriggerCell gz fromPos with
          | some sourceTrigger => jsIndexOf path sourceTrigger.trigger
          | none => fromIndex0
        calculateGamePathDistanceAux gz fromPos toPos player path fromIndex
      else calculateGamePathDistanceAux gz fromPos toPos player path fromIndex0
    else calculateGamePathDistanceAux gz fromPos toPos player path fromIndex0

/-- Dice-consistency test from `distanceCalculator.js`
(`validateDistanceWithDice`): the travelled step count must be `dice1`,
`dice2`, or their sum. -/
def validateDistanceWithDice (actualSteps dice1 dice2 : Int) : Bool :=
  [dice1, dice2, dice1 + dice2].contains actualSteps

/-- One dice-roll record of a `diceRolls` list: `dice1` and `dice2` always
present, `sum`, `player` and `color` only when the record came from a
dice-log entry. -/
structure DiceRoll where
  dice1 : Int
  dice2 : Int
  sum : Option Int
  player : Option Nat
  color : Option String
deriving DecidableEq, Repr

/-- The label a message uses for a piece: `pieceId || (piece + 1)` (an
absent or empty id falls back to the 1-based piece index). -/
def pieceLabel (mv : Movement) : String :=
  match mv.pieceId with
  | some s => if s = "" then toString (mv.piece + 1) else s
  | none => toString (mv.piece + 1)

/-- The validator messages, one constructor per template string of
`moveValidator.js`, each carrying exactly the data interpolated into the
template. -/
inductive ErrorMessage where
  | distanceViolation (label : String) (dice1 dice2 actualSteps : Int)
  | waitingExitNoDice (label : String)
  | waitingExitNoOne (label : String) (dice1 dice2 : Int)
  | prisonExitNoDice (label : String)
  | prisonExitNoSix (label : String) (dice1 dice2 : Int)
  | foreignTeleport (label : String) (player : Nat) (fromPos : Coord) (expected : Option Coord)
deriving DecidableEq, Repr

/-- Result shape `{ isValid, errorMessage }` of the four single-rule
validators.  In the source every invalid result carries a message and every
valid result carries null. -/
structure MoveValidation where
  isValid : Bool
  errorMessage : Option ErrorMessage
deriving DecidableEq, Repr

/-- Distance rule from `moveValidator.js` (`validateMoveDistance`): with no
dice information the movement is accepted; otherwise the game-path distance
must match the first roll's dice values. -/
def validateMoveDistance (gz : GameZones) (mv : Movement) (diceRolls : List DiceRoll) :
    MoveValidation :=
  match diceRolls with
  | [] => ⟨true, none⟩
  | r :: _ =>
    let actualSteps := calculateGamePathDistance gz mv.fromPos mv.toPos mv.player
    if validateDistanceWithDice actualSteps r.dice1 r.dice2 then ⟨true, none⟩
    else ⟨false, some (.distanceViolation (pieceLabel mv) r.dice1 r.dice2 actualSteps)⟩

/-- Waiting-zone-exit rule from `moveValidator.js`
(`validateWaitingZoneExit`): a waiting-zone exit needs dice information and
at least one die showing 1. -/
def validateWaitingZoneExit (gz : GameZones) (mv : Movement) (diceRolls : List DiceRoll) :
    MoveValidation :=
  if ¬ isWaitingZoneExit gz mv.fromPos mv.toPos mv.player then ⟨true, none⟩
  else
    match diceRolls with
    | [] => ⟨false, some (.waitingExitNoDice (pieceLabel mv))⟩
    | r :: _ =>
      if r.dice1 = 1 ∨ r.dice2 = 1 then ⟨true, none⟩
      else ⟨false, some (.waitingExitNoOne (pieceLabel mv) r.dice1 r.dice2)⟩

/-- Prison-exit rule from `moveValidator.js` (`validatePrisonExit`): a
prison exit needs dice information and at least one die showing 6. -/
def validatePrisonExit (gz : GameZones) (mv : Movement) (diceRolls : List DiceRoll) :
    MoveValidation :=
  if ¬ isPrisonExit gz mv.fromPos mv.toPos mv.player then ⟨true, none⟩
  else
    match diceRolls with
    | [] => ⟨false, some (.prisonExitNoDice (pieceLabel mv))⟩
    | r :: _ =>
      if r.dice1 = 6 ∨ r.dice2 = 6 then ⟨true, none⟩
      else ⟨false, some (.prisonExitNoSix (pieceLabel mv) r.dice1 r.dice2)⟩

/-- Teleport-ownership rule from `moveValidator.js`
(`validateTeleportUsage`): a move out of a teleport cell must start at the
mover's own teleport cell. -/
def validateTeleportUsage (gz : GameZones) (mv : Movement) (_diceRolls : List DiceRoll) :
    MoveValidation :=
  if ¬ isTeleportMove gz mv.fromPos mv.toPos mv.player then ⟨true, none⟩
  else
    match getPlayerTeleport gz mv.player with
    | none => ⟨false, some (.foreignTeleport (pieceLabel mv) mv.player mv.fromPos none)⟩
    | some playerTeleport =>
      if mv.fromPos = playerTeleport then ⟨true, none⟩
      else
        ⟨false,
          some (.foreignTeleport (pieceLabel mv) mv.player mv.fromPos (some playerTeleport))⟩

/-- Result shape `{ isValid, errorMessages }` of `validateMove` and
`validateAllMoves`. -/
structure ValidationResult where
  isValid : Bool
  errorMessages : List ErrorMessage
deriving DecidableEq, Repr

/-- Combined per-movement validation from `moveValidator.js`
(`validateMove`): captured pieces are exempt; otherwise all four rules run,
the messages of the failed ones are collected, and the movement is valid
when no message was collected. -/
def validateMove (gz : GameZones) (mv : Movement) (diceRolls : List DiceRoll) :
    ValidationResult :=
  if isPieceCaptured gz mv then ⟨true, []⟩
  else
    let validations :=
      [validateMoveDistance gz mv diceRolls,
       validateWaitingZoneExit gz mv diceRolls,
       validatePrisonExit gz mv diceRolls,
       validateTeleportUsage gz mv diceRolls]
    let errors := (validations.filter (fun r => ¬ r.isValid)).filterMap (fun r => r.errorMessage)
    ⟨errors.length = 0, errors⟩

/-- Turn-level validation from `moveValidator.js` (`validateAllMoves`): the
error lists of the invalid movements are concatenated in movement order. -/
def validateAllMoves (gz : GameZones) (movements : List Movement)
    (diceRolls : List DiceRoll) : ValidationResult :=
  let allErrors := movements.foldl
    (fun acc mv =>
      let result := validateMove gz mv diceRolls
      if ¬ result.isValid then acc ++ result.errorMessages else acc)
    []
  ⟨allErrors.length = 0, allErrors⟩

/-- A piece of a snapshot's `piecesData` entry: an optional id and a board
position.  The data model gives every piece a current coordinate; the
source's defensive `if (piece.position)` checks therefore never fail and
are not modelled. -/
structure Piece where
  id : Option String
  position : Coord
deriving DecidableEq, Repr

/-- One entry of a snapshot's `diceLog`:
`{ dice1, dice2, sum, player, color }`. -/
structure DiceLogEntry where
  dice1 : Int
  dice2 : Int
  sum : Int
  player : Nat
  color : Option String
deriving DecidableEq, Repr

/-- A game-state snapshot as `compareGameStates` and the narrator read it:
an optional current player, the per-player piece lists keyed by the player
number (the object keys `"1"`–`"4"`, parsed by `parseInt`), an optional
`lastDiceRoll` pair, an optional dice log, and an optional phase marker. -/
structure GameState where
  currentPlayer : Option Nat
  piecesData : Option (List (Nat × List Piece))
  lastDiceRoll : Option (Int × Int)
  diceLog : Option (List DiceLogEntry)
  gamePhase : Option String
deriving DecidableEq, Repr

/-- The turn delta produced by `compareGameStates`. -/
structure GameDifferences where
  hasChanges : Bool
  playerChanged : Bool
  previousPlayer : Option Nat
  currentPlayer : Option Nat
  pieceMovements : List Movement
  diceRolls : List DiceRoll
  statusChanged : Bool
deriving DecidableEq, Repr

/-- JavaScript `newState.currentPlayer || 1`: absent and 0 are falsy and
default to 1. -/
def jsOr1 (p : Option Nat) : Nat :=
  match p with
  | some n => if n = 0 then 1 else n
  | none => 1

/-- Lookup of a player's piece list in a `piecesData` mapping
(`previousState.piecesData[playerKey] || []`). -/
def lookupPieces (pd : List (Nat × List Piece)) (playerKey : Nat) : List Piece :=
  match pd.find? (fun e => e.fst = playerKey) with
  | some e => e.snd
  | none => []

/-- The inner piece loop of `compareGameStates` for one player key: indices
0 to `max(prev.length, new.length) - 1`, recording a movement wherever both
snapshots have a piece at the index and the positions differ. -/
def comparePiecesAt (playerKey : Nat) (prevPieces newPieces : List Piece) : List Movement :=
  (List.range (max prevPieces.length newPieces.length)).filterMap
    (fun pieceIndex =>
      match prevPieces.get? pieceIndex, newPieces.get? pieceIndex with
      | some prevPiece, some newPiece =>
        if prevPiece.position ≠ newPiece.position then
          some ⟨playerKey, pieceIndex, newPiece.id, prevPiece.position, newPiece.position⟩
        else none
      | _, _ => none)

/-- The piece-movement comparison of `compareGameStates`: the player keys of
the new snapshot's `piecesData` are walked in order. -/
def comparePieces (prevPd newPd : List (Nat × List Piece)) : List Movement :=
  (newPd.map (fun entry => comparePiecesAt entry.fst (lookupPieces prevPd entry.fst) entry.snd)).flatten

/-- The `diceRolls` entry extracted from a `lastDiceRoll` pair. -/
def diceFromLastRoll (lastDiceRoll : Option (Int × Int)) : List DiceRoll :=
  match lastDiceRoll with
  | some (d1, d2) => [⟨d1, d2, none, none, none⟩]
  | none => []

/-- State diff from `gameStateManager.js` (`compareGameStates`).  With no
previous state the delta is marked changed, the current player defaults per
`|| 1`, and the dice come from `lastDiceRoll`.  Otherwise: player change,
piece movements, dice from `lastDiceRoll` overridden by the first dice-log
entry (which also marks the delta changed), and a phase comparison. -/
def compareGameStates (previousState : Option GameState) (newState : GameState) :
    GameDifferences :=
  match previousState with
  | none =>
    ⟨true, false, none, some (jsOr1 newState.currentPlayer), [],
      diceFromLastRoll newState.lastDiceRoll, false⟩
  | some prev =>
    let playerChanged : Bool := prev.currentPlayer ≠ newState.currentPlayer
    let previousPlayer := if playerChanged then prev.currentPlayer else none
    let currentPlayer := if playerChanged then newState.currentPlayer else none
    let pieceMovements :=
      match prev.piecesData, newState.piecesData with
      | some prevPd, some newPd => comparePieces prevPd newPd
      | _, _ => []
    let diceRolls1 := diceFromLastRoll newState.lastDiceRoll
    let diceLogEntries := match newState.diceLog with | some l => l | none => []
    let diceRolls :=
      match diceLogEntries with
      | e :: _ => [⟨e.dice1, e.dice2, some e.sum, some e.player, e.color⟩]
      | [] => diceRolls1
    let statusChanged : Bool := prev.gamePhase ≠ newState.gamePhase
    let hasChanges : Bool :=
      playerChanged || ¬ pieceMovements.isEmpty || ¬ diceLogEntries.isEmpty || statusChanged
    ⟨hasChanges, playerChanged, previousPlayer, currentPlayer, pieceMovements, diceRolls,
      statusChanged⟩

/-- All occupied positions of a snapshot (the `allPositions` accumulation of
`areSubsequentHomeCellsOccupied`). -/
def allPiecePositions (pd : List (Nat × List Piece)) : List Coord :=
  (pd.map (fun e => e.snd.map (fun piece => piece.position))).flatten

/-- Home-run occupancy test from `moveAnalyzer.js`
(`areSubsequentHomeCellsOccupied`): the cells of the player's home zone
strictly after the landing cell must be non-empty as a list and all occupied
by some piece of any player. -/
def areSubsequentHomeCellsOccupied (gz : GameZones) (gameState : GameState) (player : Nat)
    (currentPosition : Coord) : Bool :=
  match gameState.piecesData with
  | none => false
  | some pd =>
    match gz.homeZones player with
    | none => false
    | some homeCoords =>
      let allPositions := allPiecePositions pd
      let currentIndex := jsIndexOf homeCoords currentPosition
      if currentIndex = -1 then false
      else
        let subsequentCells := homeCoords.drop (currentIndex.toNat + 1)
        subsequentCells.length > 0 &&
          subsequentCells.all (fun cell => allPositions.contains cell)

/-- The narrator's per-movement descriptions, one constructor per template
string returned by `analyzePieceMovement` in `moveAnalyzer.js`, each
carrying exactly the data interpolated into the template. -/
inductive MoveDescription where
  | exitedWaitingZone (label : String)
  | exitedStartingToField (label : String) (distance : Int)
  | prisonExitWithMove (label : String) (trigger toPos : Coord) (distance : Int)
  | prisonExitOnSix (label : String)
  | prisonExitPlain (label : String)
  | templeExitViaTrigger (label : String) (trigger toPos : Coord) (distance : Int)
  | templeExitPlain (label : String) (toPos : Coord) (distance : Int)
  | enteredPrison (label : String) (fromPos toPos : Coord) (distance : Int)
  | enteredPrisonPlain (label : String) (toPos : Coord) (distance : Int)
  | enteredTemple (label : String) (fromPos toPos : Coord) (distance : Int)
  | enteredTemplePlain (label : String) (toPos : Coord) (distance : Int)
  | settledInHome (label : String)
  | hiddenInHome (label : String)
  | movedFromWaiting (label : String) (fromPos toPos : Coord) (distance : Int)
  | movedFromStarting (label : String) (fromPos toPos : Coord) (distance : Int)
  | movedOnField (label : String) (fromPos toPos : Coord) (distance : Int)
deriving DecidableEq, Repr

/-- Narration of one movement from `moveAnalyzer.js`
(`analyzePieceMovement`): the ordered branch cascade over the origin and
destination zones of the movement. -/
def analyzePieceMovement (gz : GameZones) (mv : Movement) (gameState : GameState)
    (diceRolls : List DiceRoll) : MoveDescription :=
  let fromZone := getZoneType gz mv.fromPos mv.player
  let toZone := getZoneType gz mv.toPos mv.player
  let label := pieceLabel mv
  if fromZone = ZoneType.waiting ∧ toZone = ZoneType.starting then
    .exitedWaitingZone label
  else if fromZone = ZoneType.starting ∧ toZone ≠ ZoneType.starting then
    .exitedStartingToField label (calculateGamePathDistance gz mv.fromPos mv.toPos mv.player)
  else if fromZone = ZoneType.prison then
    let diceSum : Int := match diceRolls with | r :: _ => r.dice1 + r.dice2 | [] => 0
    match getSourceTriggerCell gz mv.fromPos with
    | some sourceTrigger =>
      if diceSum ≥ 6 then
        if diceSum - 6 > 0 then
          .prisonExitWithMove label sourceTrigger.trigger mv.toPos
            (calculateGamePathDistance gz sourceTrigger.trigger mv.toPos mv.player)
        else .prisonExitOnSix label
      else .prisonExitPlain label
    | none => .prisonExitPlain label
  else if fromZone = ZoneType.temple then
    match getSourceTriggerCell gz mv.fromPos with
    | some sourceTrigger =>
      .templeExitViaTrigger label sourceTrigger.trigger mv.toPos
        (calculateGamePathDistance gz sourceTrigger.trigger mv.toPos mv.player)
    | none =>
      .templeExitPlain label mv.toPos (calculateGamePathDistance gz mv.fromPos mv.toPos mv.player)
  else if toZone = ZoneType.prison then
    match getTriggerCell gz mv.toPos with
    | some triggerData =>
      .enteredPrison label mv.fromPos mv.toPos
        (calculateGamePathDistance gz mv.fromPos triggerData.trigger mv.player)
    | none =>
      .enteredPrisonPlain label mv.toPos
        (calculateGamePathDistance gz mv.fromPos mv.toPos mv.player)
  else if toZone = ZoneType.temple then
    match getTriggerCell gz mv.toPos with
    | some triggerData =>
      .enteredTemple label mv.fromPos mv.toPos
        (calculateGamePathDistance gz mv.fromPos triggerData.trigger mv.player)
    | none =>
      .enteredTemplePlain label mv.toPos
        (calculateGamePathDistance gz mv.fromPos mv.toPos mv.player)
  else if toZone = ZoneType.home then
    if areSubsequentHomeCellsOccupied gz gameState mv.player mv.toPos then
      .settledInHome label
    else .hiddenInHome label
  else if fromZone = ZoneType.waiting then
    .movedFromWaiting label mv.fromPos mv.toPos
      (calculateGamePathDistance gz mv.fromPos mv.toPos mv.player)
  else if fromZone = ZoneType.starting then
    .movedFromStarting label mv.fromPos mv.toPos
      (calculateGamePathDistance gz mv.fromPos mv.toPos mv.player)
  else
    .movedOnField label mv.fromPos mv.toPos
      (calculateGamePathDistance gz mv.fromPos mv.toPos mv.player)

/-! Concrete board cells and a concrete configuration, used to instantiate
the theorems below at explicit inputs. -/

/-- Path cell 0 of the sample configuration (also its movement start). -/
def pc0 : Coord := ⟨0, 0⟩

/-- Path cell 1 of the sample configuration. -/
def pc1 : Coord := ⟨1, 0⟩

/-- Path cell 2 of the sample configuration (also the prison trigger). -/
def pc2 : Coord := ⟨2, 0⟩

/-- Path cell 3 of the sample configuration (also the temple trigger). -/
def pc3 : Coord := ⟨3, 0⟩

/-- Path cell 4 of the sample configuration. -/
def pc4 : Coord := ⟨4, 0⟩

/-- The waiting-zone cell of the sample configuration. -/
def wc : Coord := ⟨10, 1⟩

/-- The starting-position cell of the sample configuration. -/
def sc : Coord := ⟨11, 1⟩

/-- First home cell of the sample configuration. -/
def hc1 : Coord := ⟨12, 1⟩

/-- Second (last) home cell of the sample configuration. -/
def hc2 : Coord := ⟨13, 1⟩

/-- The prison cell (teleport target) of the sample configuration. -/
def prCell : Coord := ⟨20, 2⟩

/-- The temple cell (teleport target) of the sample configuration. -/
def teCell : Coord := ⟨21, 2⟩

/-- The teleport cell of player 1 in the sample configuration. -/
def tpc : Coord := ⟨22, 2⟩

/-- An ordinary field cell off the path. -/
def fc : Coord := ⟨30, 3⟩

/-- Another ordinary field cell off the path. -/
def gc : Coord := ⟨31, 3⟩

/-- Modelled from the spec: the repository's board data file
`gameZones.json` is not among the sources, so this is a small configuration
of the shape described in the external-interfaces section — player 1 has an
ordered path (five cells), a waiting zone, a starting position, a home run
(two cells), a prison trigger→target pair (triggered from path cell 2), a
temple pair (triggered from path cell 3), a movement-start cell (path cell
0) and a per-player teleport coordinate distinct from the other zones. -/
def gzW : GameZones :=
  ⟨fun p => if p = 1 then some [pc0, pc1, pc2, pc3, pc4] else none,
   fun p => if p = 1 then some [wc] else none,
   fun p => if p = 1 then some [sc] else none,
   fun p => if p = 1 then some [hc1, hc2] else none,
   [(pc2, prCell)],
   [(pc3, teCell)],
   fun p => if p = 1 then some pc0 else none,
   fun p => if p = 1 then some tpc else none⟩

/-- Recogniser for the prison-exit rule's messages (`validatePrisonExit`
is the only producer of these two templates). -/
def isPrisonExitViolation : ErrorMessage → Bool
  | .prisonExitNoDice _ => true
  | .prisonExitNoSix _ _ _ => true
  | _ => false

/-- A snapshot with a non-empty dice log and no other content. -/
def sWithLog : GameState := ⟨some 1, some [], some (3, 4), some [⟨3, 4, 7, 1, none⟩], none⟩

/-- A snapshot with an empty dice log, one piece, and a last dice roll. -/
def sPlain : GameState := ⟨some 2, some [(1, [⟨none, pc1⟩])], some (2, 3), none, none⟩

/-- A snapshot whose current player is the number 0. -/
def sZero : GameState := ⟨some 0, none, none, none, none⟩

/-- A snapshot with current player 2 and a last dice roll. -/
def sTwo : GameState := ⟨some 2, none, some (3, 4), none, none⟩

/-- A snapshot with every field absent. -/
def sEmptyState : GameState := ⟨none, none, none, none, none⟩

/-! Helper lemmas shared by the claim theorems. -/

/-- The dice-consistency test accepts exactly the three listed values. -/
theorem validateDistanceWithDice_iff (a d1 d2 : Int) :
    validateDistanceWithDice a d1 d2 = true ↔ (a = d1 ∨ a = d2 ∨ a = d1 + d2) := by
  simp [validateDistanceWithDice, List.contains]

/-- A movement is valid exactly when it produced no error message. -/
theorem validateMove_isValid_iff_aux (gz : GameZones) (mv : Movement)
    (dice : List DiceRoll) :
    (validateMove gz mv dice).isValid = true ↔ (validateMove gz mv dice).errorMessages = [] := by
  unfold validateMove
  by_cases h : isPieceCaptured gz mv = true
  · simp [h]
  · simp only [Bool.not_eq_true] at h
    rw [if_neg (by simp [h])]
    exact (decide_eq_true_iff).trans List.length_eq_zero

/-- Accumulating `acc ++ g b` over a list collects the flattened images. -/
theorem foldl_append_flatten_aux {α β : Type} (g : β → List α) :
    ∀ (l : List β) (acc : List α),
      l.foldl (fun a b => a ++ g b) acc = acc ++ (l.map g).flatten := by
  intro l
  induction l with
  | nil => intro acc; simp
  | cons b bs ih => intro acc; simp [ih, List.append_assoc]

/-- The error accumulation loop of `validateAllMoves` appends the error
lists of the movements in order. -/
theorem validateAllMoves_foldl_aux (gz : GameZones) (dice : List DiceRoll)
    (movements : List Movement) (acc : List ErrorMessage) :
    movements.foldl
      (fun acc mv =>
        let result := validateMove gz mv dice
        if ¬ result.isValid then acc ++ result.errorMessages else acc)
      acc
    = acc ++ (movements.map (fun m => (validateMove gz m dice).errorMessages)).flatten := by
  have step : ∀ (a : List ErrorMessage) (mv : Movement),
      (let result := validateMove gz mv dice
        if ¬ result.isValid then a ++ result.errorMessages else a)
      = a ++ (validateMove gz mv dice).errorMessages := by
    intro a mv
    by_cases h : (validateMove gz mv dice).isValid = true
    · have he := (validateMove_isValid_iff_aux gz mv dice).mp h
      simp [h, he]
    · simp only [Bool.not_eq_true] at h
      simp [h]
  rw [List.foldl_ext _ _ acc (fun a b _ => step a b)]
  exact foldl_append_flatten_aux _ movements acc

/-! Claim theorems. -/

/-- C10: a movement validation is valid exactly when its error list is
empty; a turn validation is valid exactly when its aggregated error list is
empty, and that list is the in-order concatenation of the per-movement
error lists. -/
theorem validate_isValid_empty_iff (gz : GameZones) (dice : List DiceRoll) (mv : Movement)
    (movements : List Movement) :
    ((validateMove gz mv dice).isValid = true ↔ (validateMove gz mv dice).errorMessages = []) ∧
    ((validateAllMoves gz movements dice).isValid = true ↔
      (validateAllMoves gz movements dice).errorMessages = []) ∧
    (validateAllMoves gz movements dice).errorMessages =
      (movements.map (fun m => (validateMove gz m dice).errorMessages)).flatten := by
  refine ⟨validateMove_isValid_iff_aux gz mv dice, ?_, ?_⟩
  · simp [validateAllMoves, List.length_eq_zero]
  · simp only [validateAllMoves]
    exact validateAllMoves_foldl_aux gz dice movements []

/-- C5: a capture movement (destination waiting, origin not waiting) is
exempt from all four rules: `validateMove` returns valid with an empty
error list for every dice list. -/
theorem validateMove_capture_exempt (gz : GameZones) (mv : Movement) (dice : List DiceRoll)
    (h : isPieceCaptured gz mv = true) :
    validateMove gz mv dice = ⟨true, []⟩ := by
  simp [validateMove, h]

/-- Witness for C5: in the sample configuration a movement from a field
cell into the waiting zone is a capture and validates to no violations. -/
theorem validateMove_capture_exempt_witness :
    isPieceCaptured gzW ⟨1, 0, none, fc, wc⟩ = true ∧
    validateMove gzW ⟨1, 0, none, fc, wc⟩ [] = ⟨true, []⟩ :=
  ⟨by decide, validateMove_capture_exempt gzW ⟨1, 0, none, fc, wc⟩ [] (by decide)⟩

/-- C1: for a non-capture movement and a non-empty dice list,
`validateMoveDistance` accepts exactly when the game-path distance equals
`dice1`, `dice2` or their sum; any other distance produces exactly the one
distance-violation message. -/
theorem validateMoveDistance_spec (gz : GameZones) (mv : Movement) (r : DiceRoll)
    (rest : List DiceRoll) (actualSteps : Int)
    (_hcap : isPieceCaptured gz mv = false)
    (hsteps : calculateGamePathDistance gz mv.fromPos mv.toPos mv.player = actualSteps) :
    ((validateMoveDistance gz mv (r :: rest)).isValid = true ↔
      (actualSteps = r.dice1 ∨ actualSteps = r.dice2 ∨ actualSteps = r.dice1 + r.dice2)) ∧
    (¬ (actualSteps = r.dice1 ∨ actualSteps = r.dice2 ∨ actualSteps = r.dice1 + r.dice2) →
      validateMoveDistance gz mv (r :: rest) =
        ⟨false, some (ErrorMessage.distanceViolation (pieceLabel mv) r.dice1 r.dice2
          actualSteps)⟩) := by
  subst hsteps
  constructor
  · rw [← validateDistanceWithDice_iff]
    simp only [validateMoveDistance]
    by_cases h : validateDistanceWithDice
        (calculateGamePathDistance gz mv.fromPos mv.toPos mv.player) r.dice1 r.dice2 = true
    · simp [h]
    · simp only [Bool.not_eq_true] at h
      simp [h]
  · intro hno
    rw [← validateDistanceWithDice_iff] at hno
    simp only [Bool.not_eq_true] at hno
    simp [validateMoveDistance, hno]

/-- Witness for C1: a two-cell path movement with dice 2 and 5 is accepted
(distance 2 equals the first die). -/
theorem validateMoveDistance_spec_witness :
    ((validateMoveDistance gzW ⟨1, 0, none, pc0, pc2⟩
        [⟨2, 5, none, none, none⟩]).isValid = true ↔
      ((2 : Int) = 2 ∨ (2 : Int) = 5 ∨ (2 : Int) = 2 + 5)) ∧
    (¬ ((2 : Int) = 2 ∨ (2 : Int) = 5 ∨ (2 : Int) = 2 + 5) →
      validateMoveDistance gzW ⟨1, 0, none, pc0, pc2⟩ [⟨2, 5, none, none, none⟩] =
        ⟨false, some (ErrorMessage.distanceViolation
          (pieceLabel ⟨1, 0, none, pc0, pc2⟩) 2 5 2)⟩) :=
  validateMoveDistance_spec gzW ⟨1, 0, none, pc0, pc2⟩ ⟨2, 5, none, none, none⟩ [] 2
    (by decide) (by decide)

/-- C4 (amended): the two zone classifiers agree at every pair where the
`zoneDetector.js` version does not classify the coordinate as teleport; at
a teleport-classified coordinate the legacy copy returns field; and a
coordinate absent from every special zone set classifies as field in both.
Both are total Lean functions, hence total and deterministic. -/
theorem getZoneType_legacy_agreement (gz : GameZones) (pos : Coord) (player : Nat) :
    (getZoneType gz pos player ≠ ZoneType.teleport →
      getZoneTypeLegacy gz pos player = getZoneType gz pos player) ∧
    (getZoneType gz pos player = ZoneType.teleport →
      getZoneTypeLegacy gz pos player = ZoneType.field) ∧
    (zoneContains (gz.waitingZones player) pos = false →
      zoneContains (gz.startingPositions player) pos = false →
      zoneContains (gz.homeZones player) pos = false →
      (gz.prison.map Prod.snd).contains pos = false →
      (gz.temple.map Prod.snd).contains pos = false →
      gz.movementStart player ≠ some pos →
      gz.teleportZones player ≠ some pos →
      getZoneType gz pos player = ZoneType.field ∧
        getZoneTypeLegacy gz pos player = ZoneType.field) := by
  unfold getZoneType getZoneTypeLegacy
  split_ifs <;> simp_all

/-- Counterexample for C4 as stated: in a configuration with a teleport
cell that lies in no other zone, the `zoneDetector.js` classifier returns
teleport while the legacy copy returns field. -/
theorem getZoneType_legacy_counterexample :
    getZoneType gzW tpc 1 = ZoneType.teleport ∧
    getZoneTypeLegacy gzW tpc 1 = ZoneType.field ∧
    ZoneType.teleport ≠ ZoneType.field := by
  refine ⟨by decide, by decide, by decide⟩

/-- Witness for C4 (amended): at an ordinary field cell the two classifiers
agree and both default to field; at the teleport cell the legacy copy
returns field. -/
theorem getZoneType_legacy_agreement_witness :
    getZoneTypeLegacy gzW fc 1 = getZoneType gzW fc 1 ∧
    (getZoneType gzW fc 1 = ZoneType.field ∧ getZoneTypeLegacy gzW fc 1 = ZoneType.field) ∧
    getZoneTypeLegacy gzW tpc 1 = ZoneType.field :=
  ⟨(getZoneType_legacy_agreement gzW fc 1).1 (by decide),
   (getZoneType_legacy_agreement gzW fc 1).2.2 (by decide) (by decide) (by decide)
     (by decide) (by decide) (by decide) (by decide),
   (getZoneType_legacy_agreement gzW tpc 1).2.1 (by decide)⟩

/-- `jsIndexOf` returns -1 or a non-negative index. -/
theorem jsIndexOf_neg_one_or_nonneg (l : List Coord) (x : Coord) :
    jsIndexOf l x = -1 ∨ 0 ≤ jsIndexOf l x := by
  induction l with
  | nil => left; rfl
  | cons a rest ih =>
    simp only [jsIndexOf]
    by_cases h : a = x
    · right; simp [h]
    · rcases ih with h1 | h1
      · left; simp [h, h1]
      · by_cases h2 : jsIndexOf rest x = -1
        · left; simp [h, h2]
        · right; simp [h, h2]; omega

/-- `jsIndexOf` returns -1 exactly for elements not in the list. -/
theorem jsIndexOf_eq_neg_one_iff (l : List Coord) (x : Coord) :
    jsIndexOf l x = -1 ↔ x ∉ l := by
  induction l with
  | nil => simp [jsIndexOf]
  | cons a rest ih =>
    simp only [jsIndexOf]
    by_cases h : a = x
    · simp [h]
    · by_cases hr : jsIndexOf rest x = -1
      · have hxa : ¬ x = a := fun hx => h hx.symm
        simp [h, hr, ih.mp hr, hxa]
      · have hx : x ∈ rest := by
          by_contra hc
          exact hr (ih.mpr hc)
        have hnn : 0 ≤ jsIndexOf rest x := (jsIndexOf_neg_one_or_nonneg rest x).resolve_left hr
        have : ¬ (jsIndexOf rest x + 1 = -1) := by omega
        simp [h, hr, this, hx]

/-- Distance tail at virtual index -2 (origin in the waiting zone) with a
resolved destination index: 2 + toIndex. -/
theorem calcAux_minus_two (gz : GameZones) (fromPos toPos : Coord) (player : Nat)
    (path : List Coord) (j : Nat) (hto : jsIndexOf path toPos = (j : Int)) :
    calculateGamePathDistanceAux gz fromPos toPos player path (-2) = 2 + (j : Int) := by
  have hj : ¬ ((j : Int) = -1) := by omega
  have h1 : ¬ ((-2 : Int) < -2) := by omega
  have h2 : ¬ ((-2 : Int) = -1) := by omega
  simp [calculateGamePathDistanceAux, hto, hj, h1, h2]

/-- Distance tail at virtual index -1 (origin in the starting zone, which
does not classify as field) with a resolved destination index: 1 + toIndex. -/
theorem calcAux_minus_one (gz : GameZones) (fromPos toPos : Coord) (player : Nat)
    (path : List Coord) (j : Nat) (hto : jsIndexOf path toPos = (j : Int))
    (hfz : getZoneType gz fromPos player ≠ ZoneType.field) :
    calculateGamePathDistanceAux gz fromPos toPos player path (-1) = 1 + (j : Int) := by
  have hj : ¬ ((j : Int) = -1) := by omega
  have h1 : ¬ ((-1 : Int) < -2) := by omega
  simp [calculateGamePathDistanceAux, hto, hj, h1, hfz]

/-- Distance tail with both indices resolved on the path: the absolute
index difference. -/
theorem calcAux_onpath (gz : GameZones) (fromPos toPos : Coord) (player : Nat)
    (path : List Coord) (i j : Nat) (hto : jsIndexOf path toPos = (j : Int)) :
    calculateGamePathDistanceAux gz fromPos toPos player path (i : Int)
      = (((j : Int) - (i : Int)).natAbs : Int) := by
  have hj : ¬ ((j : Int) = -1) := by omega
  have h1 : ¬ ((i : Int) < -2) := by omega
  have h2 : ¬ ((i : Int) = -1) := by omega
  have h3 : ¬ ((i : Int) = -2) := by omega
  simp [calculateGamePathDistanceAux, hto, hj, h1, h2, h3]

/-- Distance tail when the destination is not on the path and classifies as
neither prison nor temple: the destination index stays unresolved and the
Manhattan fallback is returned, whatever the origin index is. -/
theorem calcAux_to_unresolved (gz : GameZones) (fromPos toPos : Coord) (player : Nat)
    (path : List Coord) (fi : Int) (hto : toPos ∉ path)
    (hz1 : getZoneType gz toPos player ≠ ZoneType.prison)
    (hz2 : getZoneType gz toPos player ≠ ZoneType.temple) :
    calculateGamePathDistanceAux gz fromPos toPos player path fi
      = calculateManhattanDistance fromPos toPos := by
  have h0 : jsIndexOf path toPos = -1 := (jsIndexOf_eq_neg_one_iff _ _).mpr hto
  simp [calculateGamePathDistanceAux, h0, hz1, hz2]

/-- Distance tail when the origin stayed unresolved and classifies as an
ordinary field cell: the Manhattan fallback is returned. -/
theorem calcAux_from_field (gz : GameZones) (fromPos toPos : Coord) (player : Nat)
    (path : List Coord) (hfz : getZoneType gz fromPos player = ZoneType.field) :
    calculateGamePathDistanceAux gz fromPos toPos player path (-1)
      = calculateManhattanDistance fromPos toPos := by
  simp [calculateGamePathDistanceAux, hfz]

/-- C2: for every player with a configured path, `calculateGamePathDistance`
returns 1 from the waiting zone into the starting zone, 0 within the
starting zone, `2 + toIndex` from the waiting zone onto the path,
`1 + toIndex` from the starting zone onto the path, the absolute index
difference when both ends are on the path, and the Manhattan estimate when
the origin is an off-path field cell or the destination can never resolve
to a path index.  Membership hypotheses mirror the source's resolution
order: zone classification of the origin only happens off the path, and a
starting-classified destination takes the early-return branches. -/
theorem calculateGamePathDistance_spec (gz : GameZones) (player : Nat) (path : List Coord)
    (hpath : gz.playerPaths player = some path) (fromPos toPos : Coord) :
    (fromPos ∉ path → getZoneType gz fromPos player = ZoneType.waiting →
      getZoneType gz toPos player = ZoneType.starting →
      calculateGamePathDistance gz fromPos toPos player = 1) ∧
    (fromPos ∉ path → getZoneType gz fromPos player = ZoneType.starting →
      getZoneType gz toPos player = ZoneType.starting →
      calculateGamePathDistance gz fromPos toPos player = 0) ∧
    (∀ toIndex : Nat, fromPos ∉ path → getZoneType gz fromPos player = ZoneType.waiting →
      getZoneType gz toPos player ≠ ZoneType.starting →
      jsIndexOf path toPos = (toIndex : Int) →
      calculateGamePathDistance gz fromPos toPos player = 2 + (toIndex : Int)) ∧
    (∀ toIndex : Nat, fromPos ∉ path → getZoneType gz fromPos player = ZoneType.starting →
      getZoneType gz toPos player ≠ ZoneType.starting →
      jsIndexOf path toPos = (toIndex : Int) →
      calculateGamePathDistance gz fromPos toPos player = 1 + (toIndex : Int)) ∧
    (∀ fromIndex toIndex : Nat, jsIndexOf path fromPos = (fromIndex : Int) →
      jsIndexOf path toPos = (toIndex : Int) →
      calculateGamePathDistance gz fromPos toPos player
        = (((toIndex : Int) - (fromIndex : Int)).natAbs : Int)) ∧
    (fromPos ∉ path → getZoneType gz fromPos player = ZoneType.field →
      calculateGamePathDistance gz fromPos toPos player
        = calculateManhattanDistance fromPos toPos) ∧
    (toPos ∉ path → getZoneType gz toPos player ≠ ZoneType.starting →
      getZoneType gz toPos player ≠ ZoneType.prison →
      getZoneType gz toPos player ≠ ZoneType.temple →
      calculateGamePathDistance gz fromPos toPos player
        = calculateManhattanDistance fromPos toPos) := by
  refine ⟨?_, ?_, ?_, ?_, ?_, ?_, ?_⟩
  · intro hmem hfw hts
    have h0 : jsIndexOf path fromPos = -1 := (jsIndexOf_eq_neg_one_iff _ _).mpr hmem
    simp [calculateGamePathDistance, hpath, h0, hfw, hts]
  · intro hmem hfs hts
    have h0 : jsIndexOf path fromPos = -1 := (jsIndexOf_eq_neg_one_iff _ _).mpr hmem
    simp [calculateGamePathDistance, hpath, h0, hfs, hts]
  · intro toIndex hmem hfw hts hto
    have h0 : jsIndexOf path fromPos = -1 := (jsIndexOf_eq_neg_one_iff _ _).mpr hmem
    simp [calculateGamePathDistance, hpath, h0, hfw, hts]
    exact calcAux_minus_two gz fromPos toPos player path toIndex hto
  · intro toIndex hmem hfs hts hto
    have h0 : jsIndexOf path fromPos = -1 := (jsIndexOf_eq_neg_one_iff _ _).mpr hmem
    have hfz : getZoneType gz fromPos player ≠ ZoneType.field := by simp [hfs]
    simp [calculateGamePathDistance, hpath, h0, hfs, hts]
    exact calcAux_minus_one gz fromPos toPos player path toIndex hto hfz
  · intro fromIndex toIndex hfi hto
    have hne : ¬ (jsIndexOf path fromPos = -1) := by rw [hfi]; omega
    simp [calculateGamePathDistance, hpath, hne, hfi]
    rw [Int.abs_eq_natAbs]
    exact calcAux_onpath gz fromPos toPos player path fromIndex toIndex hto
  · intro hmem hfz
    have h0 : jsIndexOf path fromPos = -1 := (jsIndexOf_eq_neg_one_iff _ _).mpr hmem
    simp [calculateGamePathDistance, hpath, h0, hfz]
    exact calcAux_from_field gz fromPos toPos player path hfz
  · intro hmem hz0 hz1 hz2
    by_cases hf : jsIndexOf path fromPos = -1
    · simp only [calculateGamePathDistance, hpath]
      rw [if_pos hf]
      cases hzf : getZoneType gz fromPos player <;>
        simp [hzf, hz0] <;>
        exact calcAux_to_unresolved gz fromPos toPos player path _ hmem hz1 hz2
    · simp only [calculateGamePathDistance, hpath]
      rw [if_neg hf]
      exact calcAux_to_unresolved gz fromPos toPos player path _ hmem hz1 hz2

/-- Witness for C2: all six distance cases evaluated in the sample
configuration. -/
theorem calculateGamePathDistance_spec_witness :
    calculateGamePathDistance gzW wc sc 1 = 1 ∧
    calculateGamePathDistance gzW sc sc 1 = 0 ∧
    calculateGamePathDistance gzW wc pc2 1 = 2 + ((2 : Nat) : Int) ∧
    calculateGamePathDistance gzW sc pc2 1 = 1 + ((2 : Nat) : Int) ∧
    calculateGamePathDistance gzW pc1 pc4 1
      = (((((4 : Nat) : Int)) - (((1 : Nat) : Int))).natAbs : Int) ∧
    calculateGamePathDistance gzW fc pc2 1 = calculateManhattanDistance fc pc2 ∧
    calculateGamePathDistance gzW pc0 gc 1 = calculateManhattanDistance pc0 gc :=
  ⟨(calculateGamePathDistance_spec gzW 1 [pc0, pc1, pc2, pc3, pc4] rfl wc sc).1
      (by decide) (by decide) (by decide),
   (calculateGamePathDistance_spec gzW 1 [pc0, pc1, pc2, pc3, pc4] rfl sc sc).2.1
      (by decide) (by decide) (by decide),
   (calculateGamePathDistance_spec gzW 1 [pc0, pc1, pc2, pc3, pc4] rfl wc pc2).2.2.1 2
      (by decide) (by decide) (by decide) (by decide),
   (calculateGamePathDistance_spec gzW 1 [pc0, pc1, pc2, pc3, pc4] rfl sc pc2).2.2.2.1 2
      (by decide) (by decide) (by decide) (by decide),
   (calculateGamePathDistance_spec gzW 1 [pc0, pc1, pc2, pc3, pc4] rfl pc1 pc4).2.2.2.2.1 1 4
      (by decide) (by decide),
   (calculateGamePathDistance_spec gzW 1 [pc0, pc1, pc2, pc3, pc4] rfl fc pc2).2.2.2.2.2.1
      (by decide) (by decide),
   (calculateGamePathDistance_spec gzW 1 [pc0, pc1, pc2, pc3, pc4] rfl pc0 gc).2.2.2.2.2.2
      (by decide) (by decide) (by decide) (by decide)⟩

/-- C6: for a non-capture movement out of the prison zone with a non-empty
dice list, `validateMove` contains a prison-exit violation exactly when
neither die of the first roll shows 6; a 6 on either die satisfies the rule
whatever the destination is. -/
theorem validateMove_prison_six_iff (gz : GameZones) (mv : Movement) (r : DiceRoll)
    (rest : List DiceRoll)
    (hcap : isPieceCaptured gz mv = false)
    (hz : getZoneType gz mv.fromPos mv.player = ZoneType.prison) :
    ((validateMove gz mv (r :: rest)).errorMessages.any isPrisonExitViolation = true ↔
      ¬ (r.dice1 = 6 ∨ r.dice2 = 6)) := by
  have hw : isWaitingZoneExit gz mv.fromPos mv.toPos mv.player = false := by
    simp [isWaitingZoneExit, hz]
  have ht : isTeleportMove gz mv.fromPos mv.toPos mv.player = false := by
    simp [isTeleportMove, hz]
  have hp : isPrisonExit gz mv.fromPos mv.toPos mv.player = true := by
    simp [isPrisonExit, hz]
  have hwv : validateWaitingZoneExit gz mv (r :: rest) = ⟨true, none⟩ := by
    simp [validateWaitingZoneExit, hw]
  have htv : validateTeleportUsage gz mv (r :: rest) = ⟨true, none⟩ := by
    simp [validateTeleportUsage, ht]
  by_cases hsix : r.dice1 = 6 ∨ r.dice2 = 6
  · have hpv : validatePrisonExit gz mv (r :: rest) = ⟨true, none⟩ := by
      simp [validatePrisonExit, hp, hsix]
    by_cases hvd : validateDistanceWithDice
        (calculateGamePathDistance gz mv.fromPos mv.toPos mv.player) r.dice1 r.dice2 = true
    · have hdv : validateMoveDistance gz mv (r :: rest) = ⟨true, none⟩ := by
        simp [validateMoveDistance, hvd]
      simp [validateMove, hcap, hdv, hwv, hpv, htv, hsix]
    · simp only [Bool.not_eq_true] at hvd
      have hdv : validateMoveDistance gz mv (r :: rest)
          = ⟨false, some (ErrorMessage.distanceViolation (pieceLabel mv) r.dice1 r.dice2
              (calculateGamePathDistance gz mv.fromPos mv.toPos mv.player))⟩ := by
        simp [validateMoveDistance, hvd]
      simp [validateMove, hcap, hdv, hwv, hpv, htv, hsix, isPrisonExitViolation]
  · have hpv : validatePrisonExit gz mv (r :: rest)
        = ⟨false, some (ErrorMessage.prisonExitNoSix (pieceLabel mv) r.dice1 r.dice2)⟩ := by
      simp [validatePrisonExit, hp, hsix]
    by_cases hvd : validateDistanceWithDice
        (calculateGamePathDistance gz mv.fromPos mv.toPos mv.player) r.dice1 r.dice2 = true
    · have hdv : validateMoveDistance gz mv (r :: rest) = ⟨true, none⟩ := by
        simp [validateMoveDistance, hvd]
      simp [validateMove, hcap, hdv, hwv, hpv, htv, hsix, isPrisonExitViolation]
    · simp only [Bool.not_eq_true] at hvd
      have hdv : validateMoveDistance gz mv (r :: rest)
          = ⟨false, some (ErrorMessage.distanceViolation (pieceLabel mv) r.dice1 r.dice2
              (calculateGamePathDistance gz mv.fromPos mv.toPos mv.player))⟩ := by
        simp [validateMoveDistance, hvd]
      simp [validateMove, hcap, hdv, hwv, hpv, htv, hsix, isPrisonExitViolation]

/-- Witness for C6: a prison exit with a 6 on the first die produces no
prison-exit violation. -/
theorem validateMove_prison_six_iff_witness :
    ((validateMove gzW ⟨1, 0, none, prCell, pc4⟩
        [⟨6, 2, none, none, none⟩]).errorMessages.any isPrisonExitViolation = true ↔
      ¬ ((6 : Int) = 6 ∨ (2 : Int) = 6)) :=
  validateMove_prison_six_iff gzW ⟨1, 0, none, prCell, pc4⟩ ⟨6, 2, none, none, none⟩ []
    (by decide) (by decide)

/-- C9 (amended): a diff against an absent previous state always reports a
change and no piece movements; the delta's current player follows the
JavaScript coercion `currentPlayer || 1` (a set non-zero player is kept,
absent or 0 becomes 1); the dice roll is copied from `lastDiceRoll` when
that field is present and is empty otherwise. -/
theorem compareGameStates_none_spec (s : GameState) :
    (compareGameStates none s).hasChanges = true ∧
    (compareGameStates none s).pieceMovements = [] ∧
    (∀ p : Nat, s.currentPlayer = some p → p ≠ 0 →
      (compareGameStates none s).currentPlayer = some p) ∧
    (s.currentPlayer = none → (compareGameStates none s).currentPlayer = some 1) ∧
    (s.currentPlayer = some 0 → (compareGameStates none s).currentPlayer = some 1) ∧
    (∀ d1 d2 : Int, s.lastDiceRoll = some (d1, d2) →
      (compareGameStates none s).diceRolls = [⟨d1, d2, none, none, none⟩]) ∧
    (s.lastDiceRoll = none → (compareGameStates none s).diceRolls = []) := by
  refine ⟨rfl, rfl, ?_, ?_, ?_, ?_, ?_⟩
  · intro p hp hp0
    simp [compareGameStates, jsOr1, hp, hp0]
  · intro h
    simp [compareGameStates, jsOr1, h]
  · intro h
    simp [compareGameStates, jsOr1, h]
  · intro d1 d2 h
    simp [compareGameStates, diceFromLastRoll, h]
  · intro h
    simp [compareGameStates, diceFromLastRoll, h]

/-- Counterexample for C9 as stated: a snapshot whose current player is set
to 0 yields delta current player 1, not the snapshot's value. -/
theorem compareGameStates_none_counterexample :
    sZero.currentPlayer = some 0 ∧
    (compareGameStates none sZero).currentPlayer = some 1 ∧
    (compareGameStates none sZero).currentPlayer ≠ sZero.currentPlayer := by
  refine ⟨rfl, rfl, by decide⟩

/-- Witness for C9 (amended): evaluation on a snapshot with player 2 and a
last dice roll, and on an entirely absent snapshot. -/
theorem compareGameStates_none_spec_witness :
    (compareGameStates none sTwo).hasChanges = true ∧
    (compareGameStates none sTwo).pieceMovements = [] ∧
    (compareGameStates none sTwo).currentPlayer = some 2 ∧
    (compareGameStates none sTwo).diceRolls = [⟨3, 4, none, none, none⟩] ∧
    (compareGameStates none sEmptyState).currentPlayer = some 1 ∧
    (compareGameStates none sEmptyState).diceRolls = [] :=
  ⟨(compareGameStates_none_spec sTwo).1,
   (compareGameStates_none_spec sTwo).2.1,
   (compareGameStates_none_spec sTwo).2.2.1 2 rfl (by decide),
   (compareGameStates_none_spec sTwo).2.2.2.2.2.1 3 4 rfl,
   (compareGameStates_none_spec sEmptyState).2.2.2.1 rfl,
   (compareGameStates_none_spec sEmptyState).2.2.2.2.2.2 rfl⟩

/-- Comparing a piece list with itself yields no movements. -/
theorem comparePiecesAt_self (k : Nat) (l : List Piece) : comparePiecesAt k l l = [] := by
  rw [comparePiecesAt, List.filterMap_eq_nil_iff]
  intro i _
  cases h : l.get? i <;> simp [h]

/-- With pairwise-distinct player keys, looking an entry's key up returns
that entry's piece list. -/
theorem lookupPieces_self (pd : List (Nat × List Piece))
    (hnodup : (pd.map Prod.fst).Nodup) :
    ∀ e ∈ pd, lookupPieces pd e.fst = e.snd := by
  induction pd with
  | nil => intro e he; cases he
  | cons a rest ih =>
    intro e he
    simp only [List.map_cons, List.nodup_cons] at hnodup
    rcases List.mem_cons.mp he with rfl | hmem
    · simp [lookupPieces, List.find?]
    · have hne : ¬ (a.fst = e.fst) := fun hh =>
        hnodup.1 (hh ▸ List.mem_map_of_mem Prod.fst hmem)
      have hrest := ih hnodup.2 e hmem
      simp only [lookupPieces, List.find?] at hrest ⊢
      rw [decide_eq_false hne]
      exact hrest

/-- Comparing a piece mapping with distinct keys against itself yields no
movements. -/
theorem comparePieces_self (pd : List (Nat × List Piece))
    (hnodup : (pd.map Prod.fst).Nodup) : comparePieces pd pd = [] := by
  rw [comparePieces, List.flatten_eq_nil_iff]
  intro l hl
  rcases List.mem_map.mp hl with ⟨e, he, rfl⟩
  rw [lookupPieces_self pd hnodup e he]
  exact comparePiecesAt_self e.fst e.snd

/-- C3 (amended): comparing a snapshot against itself yields no changes and
no piece movements, provided the snapshot's dice log is absent or empty
(a non-empty dice log unconditionally marks the delta changed).  The
distinct-keys hypothesis encodes that `piecesData` came from a JavaScript
object, whose keys cannot repeat. -/
theorem compareGameStates_self_spec (s : GameState)
    (hlog : s.diceLog = none ∨ s.diceLog = some [])
    (hkeys : ∀ pd, s.piecesData = some pd → (pd.map Prod.fst).Nodup) :
    (compareGameStates (some s) s).hasChanges = false ∧
    (compareGameStates (some s) s).pieceMovements = [] := by
  cases hpd : s.piecesData with
  | none => rcases hlog with h | h <;> simp [compareGameStates, h, hpd]
  | some pd =>
    have h1 : comparePieces pd pd = [] := comparePieces_self pd (hkeys pd hpd)
    rcases hlog with h | h <;> simp [compareGameStates, h, hpd, h1]

/-- Counterexample for C3 as stated: a snapshot with a non-empty dice log
compared against itself is marked changed even though no piece moved. -/
theorem compareGameStates_self_counterexample :
    (compareGameStates (some sWithLog) sWithLog).hasChanges = true ∧
    (compareGameStates (some sWithLog) sWithLog).pieceMovements = [] := by
  refine ⟨by decide, by decide⟩

/-- Witness for C3 (amended): a snapshot with pieces, a last dice roll and
no dice log diffs against itself to an unchanged delta. -/
theorem compareGameStates_self_spec_witness :
    (compareGameStates (some sPlain) sPlain).hasChanges = false ∧
    (compareGameStates (some sPlain) sPlain).pieceMovements = [] :=
  compareGameStates_self_spec sPlain (Or.inl rfl)
    (fun pd h => by cases h; decide)

/-- The trigger search fails exactly when no entry has the target. -/
theorem findTrigger_eq_none_iff (entries : List (Coord × Coord)) (target : Coord) :
    findTrigger entries target = none ↔ ∀ p ∈ entries, p.2 ≠ target := by
  induction entries with
  | nil => simp [findTrigger]
  | cons a rest ih =>
    obtain ⟨tr0, tgt0⟩ := a
    simp only [findTrigger]
    by_cases h : tgt0 = target
    · simp [h]
    · simp [h, ih]

/-- A successful trigger search returns an entry of the table. -/
theorem findTrigger_mem (entries : List (Coord × Coord)) (target tr : Coord)
    (h : findTrigger entries target = some tr) : (tr, target) ∈ entries := by
  induction entries with
  | nil => simp [findTrigger] at h
  | cons a rest ih =>
    obtain ⟨tr0, tgt0⟩ := a
    simp only [findTrigger] at h
    by_cases h0 : tgt0 = target
    · rw [if_pos h0] at h
      injection h with h1
      subst h1
      subst h0
      exact List.mem_cons_self _ _
    · rw [if_neg h0] at h
      exact List.mem_cons_of_mem _ (ih h)

/-- The trigger search succeeds on any configured target. -/
theorem findTrigger_isSome_of_mem (entries : List (Coord × Coord)) (tr tgt : Coord)
    (h : (tr, tgt) ∈ entries) : ∃ tr2, findTrigger entries tgt = some tr2 := by
  induction entries with
  | nil => cases h
  | cons a rest ih =>
    obtain ⟨tr0, tgt0⟩ := a
    simp only [findTrigger]
    by_cases h0 : tgt0 = tgt
    · exact ⟨tr0, by rw [if_pos h0]⟩
    · rcases List.mem_cons.mp h with he | hm
      · exact absurd (congrArg Prod.snd he).symm h0
      · obtain ⟨tr2, h2⟩ := ih hm
        exact ⟨tr2, by rw [if_neg h0]; exact h2⟩

/-- C8: assuming each configured target has exactly one trigger across the
prison and temple tables, `getTriggerCell` and `getSourceTriggerCell` both
return, for every configured pair, a result whose trigger is the pair's
trigger cell; and both return null on any coordinate that is no configured
target. -/
theorem trigger_lookup_inverse (gz : GameZones)
    (huniq : ∀ p ∈ gz.prison ++ gz.temple, ∀ q ∈ gz.prison ++ gz.temple,
      p.2 = q.2 → p.1 = q.1) :
    (∀ p ∈ gz.prison ++ gz.temple,
      (∃ t, getTriggerCell gz p.2 = some t ∧ t.trigger = p.1) ∧
      (∃ s, getSourceTriggerCell gz p.2 = some s ∧ s.trigger = p.1)) ∧
    (∀ c : Coord, (∀ p ∈ gz.prison ++ gz.temple, p.2 ≠ c) →
      getTriggerCell gz c = none ∧ getSourceTriggerCell gz c = none) := by
  constructor
  · rintro ⟨a, b⟩ hp
    have key1 : ∀ tr, findTrigger gz.prison b = some tr → tr = a := fun tr h =>
      huniq (tr, b) (List.mem_append_left _ (findTrigger_mem _ _ _ h)) (a, b) hp rfl
    have key2 : ∀ tr, findTrigger gz.temple b = some tr → tr = a := fun tr h =>
      huniq (tr, b) (List.mem_append_right _ (findTrigger_mem _ _ _ h)) (a, b) hp rfl
    cases hpr : findTrigger gz.prison b with
    | some tr =>
      have htr := key1 tr hpr
      subst htr
      exact ⟨⟨⟨ZoneType.prison, tr, b⟩, by simp [getTriggerCell, hpr], rfl⟩,
             ⟨⟨ZoneType.prison, tr, b⟩, by simp [getSourceTriggerCell, hpr], rfl⟩⟩
    | none =>
      cases hte : findTrigger gz.temple b with
      | some tr =>
        have htr := key2 tr hte
        subst htr
        exact ⟨⟨⟨ZoneType.temple, tr, b⟩, by simp [getTriggerCell, hpr, hte], rfl⟩,
               ⟨⟨ZoneType.temple, tr, b⟩, by simp [getSourceTriggerCell, hpr, hte], rfl⟩⟩
      | none =>
        exfalso
        rcases List.mem_append.mp hp with h1 | h1
        · obtain ⟨tr2, h2⟩ := findTrigger_isSome_of_mem gz.prison a b h1
          rw [hpr] at h2
          cases h2
        · obtain ⟨tr2, h2⟩ := findTrigger_isSome_of_mem gz.temple a b h1
          rw [hte] at h2
          cases h2
  · intro c hc
    have h1 : findTrigger gz.prison c = none := (findTrigger_eq_none_iff _ _).mpr
      (fun p hp => hc p (List.mem_append_left _ hp))
    have h2 : findTrigger gz.temple c = none := (findTrigger_eq_none_iff _ _).mpr
      (fun p hp => hc p (List.mem_append_right _ hp))
    exact ⟨by simp [getTriggerCell, h1, h2], by simp [getSourceTriggerCell, h1, h2]⟩

/-- Witness for C8: the sample configuration's two teleport pairs, whose
targets are distinct, satisfy the round-trip property, and an unrelated
coordinate resolves to none. -/
theorem trigger_lookup_inverse_witness :
    (∀ p ∈ gzW.prison ++ gzW.temple,
      (∃ t, getTriggerCell gzW p.2 = some t ∧ t.trigger = p.1) ∧
      (∃ s, getSourceTriggerCell gzW p.2 = some s ∧ s.trigger = p.1)) ∧
    (∀ c : Coord, (∀ p ∈ gzW.prison ++ gzW.temple, p.2 ≠ c) →
      getTriggerCell gzW c = none ∧ getSourceTriggerCell gzW c = none) :=
  trigger_lookup_inverse gzW (by decide)

/-- The home-occupancy test holds exactly when the home cells strictly
after the landing cell form a non-empty, fully occupied list. -/
theorem areSubsequentHomeCellsOccupied_iff (gz : GameZones) (gs : GameState) (player : Nat)
    (toPos : Coord) (pd : List (Nat × List Piece)) (homeCoords : List Coord) (i : Nat)
    (hpd : gs.piecesData = some pd)
    (hhome : gz.homeZones player = some homeCoords)
    (hidx : jsIndexOf homeCoords toPos = (i : Int)) :
    (areSubsequentHomeCellsOccupied gz gs player toPos = true ↔
      (homeCoords.drop (i + 1) ≠ [] ∧
        ∀ cell ∈ homeCoords.drop (i + 1), cell ∈ allPiecePositions pd)) := by
  have hne : ¬ (jsIndexOf homeCoords toPos = -1) := by rw [hidx]; omega
  have htn : ((i : Int)).toNat = i := Int.toNat_natCast i
  simp only [areSubsequentHomeCellsOccupied, hpd, hhome, hidx]
  rw [if_neg (show ¬ ((i : Int) = -1) by omega)]
  simp [htn, List.length_pos, List.all_eq_true, List.contains]

/-- C7 (amended): for a movement whose destination classifies as home and
whose origin classifies as none of starting, prison or temple, the narrator
reports the piece settled in home exactly when at least one home cell lies
strictly after the landing cell and all of them are occupied by some piece,
and hidden in home otherwise — in particular a landing on the last home
cell is reported hidden. -/
theorem analyzePieceMovement_home_spec (gz : GameZones) (mv : Movement) (gs : GameState)
    (dice : List DiceRoll) (pd : List (Nat × List Piece)) (homeCoords : List Coord) (i : Nat)
    (hto : getZoneType gz mv.toPos mv.player = ZoneType.home)
    (hfs : getZoneType gz mv.fromPos mv.player ≠ ZoneType.starting)
    (hfp : getZoneType gz mv.fromPos mv.player ≠ ZoneType.prison)
    (hft : getZoneType gz mv.fromPos mv.player ≠ ZoneType.temple)
    (hpd : gs.piecesData = some pd)
    (hhome : gz.homeZones mv.player = some homeCoords)
    (hidx : jsIndexOf homeCoords mv.toPos = (i : Int)) :
    (analyzePieceMovement gz mv gs dice = MoveDescription.settledInHome (pieceLabel mv) ↔
      (homeCoords.drop (i + 1) ≠ [] ∧
        ∀ cell ∈ homeCoords.drop (i + 1), cell ∈ allPiecePositions pd)) ∧
    (analyzePieceMovement gz mv gs dice = MoveDescription.hiddenInHome (pieceLabel mv) ↔
      ¬ (homeCoords.drop (i + 1) ≠ [] ∧
        ∀ cell ∈ homeCoords.drop (i + 1), cell ∈ allPiecePositions pd)) := by
  have hocc := areSubsequentHomeCellsOccupied_iff gz gs mv.player mv.toPos pd homeCoords i
    hpd hhome hidx
  by_cases hoc : areSubsequentHomeCellsOccupied gz gs mv.player mv.toPos = true
  · have hR := hocc.mp hoc
    have ha : analyzePieceMovement gz mv gs dice
        = MoveDescription.settledInHome (pieceLabel mv) := by
      simp [analyzePieceMovement, hto, hfs, hfp, hft, hoc]
    rw [ha]
    exact ⟨iff_of_true rfl hR, iff_of_false (by simp) (not_not_intro hR)⟩
  · have hocf : areSubsequentHomeCellsOccupied gz gs mv.player mv.toPos = false := by
      simp only [Bool.not_eq_true] at hoc
      exact hoc
    have hR : ¬ (homeCoords.drop (i + 1) ≠ [] ∧
        ∀ cell ∈ homeCoords.drop (i + 1), cell ∈ allPiecePositions pd) :=
      fun h => absurd (hocc.mpr h) (by simp [hocf])
    have ha : analyzePieceMovement gz mv gs dice
        = MoveDescription.hiddenInHome (pieceLabel mv) := by
      simp [analyzePieceMovement, hto, hfs, hfp, hft, hocf]
    rw [ha]
    exact ⟨iff_of_false (by simp) hR, iff_of_true rfl hR⟩

/-- Counterexample for C7 as stated: a movement from the starting zone into
home (with its subsequent home cell free, so the claim would demand a
hidden-in-home report) is narrated as a starting-position exit, neither
settled nor hidden, because the origin-zone branches run first. -/
theorem analyzePieceMovement_home_counterexample :
    getZoneType gzW hc1 1 = ZoneType.home ∧
    analyzePieceMovement gzW ⟨1, 0, none, sc, hc1⟩ ⟨none, some [], none, none, none⟩ []
      ≠ MoveDescription.settledInHome (pieceLabel ⟨1, 0, none, sc, hc1⟩) ∧
    analyzePieceMovement gzW ⟨1, 0, none, sc, hc1⟩ ⟨none, some [], none, none, none⟩ []
      ≠ MoveDescription.hiddenInHome (pieceLabel ⟨1, 0, none, sc, hc1⟩) := by
  refine ⟨by decide, by decide, by decide⟩

/-- Witness for C7 (amended): landing on the first home cell with the
second home cell occupied. -/
theorem analyzePieceMovement_home_spec_witness :
    (analyzePieceMovement gzW ⟨1, 0, none, fc, hc1⟩
        ⟨none, some [(1, [⟨none, hc2⟩])], none, none, none⟩ []
      = MoveDescription.settledInHome (pieceLabel ⟨1, 0, none, fc, hc1⟩) ↔
      ([hc1, hc2].drop (0 + 1) ≠ [] ∧
        ∀ cell ∈ [hc1, hc2].drop (0 + 1),
          cell ∈ allPiecePositions [(1, [⟨none, hc2⟩])])) ∧
    (analyzePieceMovement gzW ⟨1, 0, none, fc, hc1⟩
        ⟨none, some [(1, [⟨none, hc2⟩])], none, none, none⟩ []
      = MoveDescription.hiddenInHome (pieceLabel ⟨1, 0, none, fc, hc1⟩) ↔
      ¬ ([hc1, hc2].drop (0 + 1) ≠ [] ∧
        ∀ cell ∈ [hc1, hc2].drop (0 + 1),
          cell ∈ allPiecePositions [(1, [⟨none, hc2⟩])])) :=
  analyzePieceMovement_home_spec gzW ⟨1, 0, none, fc, hc1⟩
    ⟨none, some [(1, [⟨none, hc2⟩])], none, none, none⟩ [] [(1, [⟨none, hc2⟩])]
    [hc1, hc2] 0 (by decide) (by decide) (by decide) (by decide) rfl (by decide) (by decide)

end Chaupar
